import Mathlib

/-!
# Serial-Studio: the `Translator` class (src/Translator.cpp)

A shallow embedding of the language selector of Serial-Studio.  The class owns one
integer field, `m_language`, and talks to three collaborators of the GUI toolkit:
the locale query of the operating system, the bundled resource store, and the
translator registry of the running application (`qApp`).  The collaborators are
inputs of the model (`Env`); every call the class makes on the registry, and every
signal it emits, is appended to a chronological event log (`World.events`).
-/

namespace SerialStudio

/-! ## Toolkit types -/

/-- The values of the toolkit enumeration `QLocale::Language` that the class
distinguishes, and one constructor for each of the remaining values. -/
inductive Language where
  | English
  | Spanish
  | Other (code : Nat)
  deriving DecidableEq

/-- A locale as built by `QLocale(QLocale::Language)`: the class only ever reads or
sets the language of a locale. -/
structure QLocale where
  language : Language
  deriving DecidableEq

/-- The calls the class performs on the application's translator registry and the
signal it emits. -/
inductive Effect where
  /-- The call `qApp->removeTranslator(&m_translator)`. -/
  | removeTranslator
  /-- The call `m_translator.load(locale, path)`. -/
  | load (locale : QLocale) (path : String)
  /-- The call `qApp->installTranslator(&m_translator)`. -/
  | installTranslator
  /-- The signal `emit languageChanged()`. -/
  | languageChanged
  deriving DecidableEq

/-- The collaborators the class calls into. -/
structure Env where
  /-- The result of `QLocale::system()`. -/
  systemLocale : QLocale
  /-- The resource store: `QFile(path).open(QFile::ReadOnly)` followed by `readAll()`
  gives the bytes of the resource, or fails. -/
  fileOpen : String → Option (List UInt8)
  /-- The decoder `QString::fromUtf8`. -/
  fromUtf8 : List UInt8 → String
  /-- The lookup `QObject::tr` of the installed catalog. -/
  tr : String → String
  /-- The boolean returned by `QTranslator::load(locale, path)`. -/
  loadResult : QLocale → String → Bool

/-! ## The class -/

/-- The data members of `Translator` that the methods read or write. -/
structure Translator where
  m_language : Int
  deriving DecidableEq

/-- The object together with the chronological log of registry calls and signals. -/
structure World where
  obj : Translator
  events : List Effect
  deriving DecidableEq

/-- Append one event to the log. -/
def World.perform (w : World) (e : Effect) : World :=
  { w with events := w.events ++ [e] }

/-- The accessor `Translator::language() const`. -/
def language (t : Translator) : Int :=
  t.m_language

/-- The method `Translator::systemLanguage() const`: a switch over the language of
the system locale. -/
def systemLanguage (env : Env) : Int :=
  match env.systemLocale.language with
  | Language.English => 0
  | Language.Spanish => 1
  | _ => 0

/-- The constructor `Translator::Translator()`. -/
def construct (env : Env) : World :=
  { obj := { m_language := systemLanguage env }, events := [] }

/-- The method `Translator::dummyString() const`. -/
def dummyString : String :=
  ""

/-- The method `Translator::welcomeConsoleText() const`. -/
def welcomeConsoleText (env : Env) (t : Translator) : String :=
  let lang := if language t = 1 then "ES" else "EN"
  let text := env.tr "Failed to load welcome text :("
  match env.fileOpen (":/messages/Welcome_" ++ lang ++ ".txt") with
  | some bytes => env.fromUtf8 bytes
  | none => text

/-- The method `Translator::availableLanguages() const`. -/
def availableLanguages : List String :=
  ["English", "Español"]

/-- The call `m_translator.load(locale, path)`: logged, and answered by the
environment. -/
def translatorLoad (env : Env) (locale : QLocale) (path : String) (w : World) :
    Bool × World :=
  (env.loadResult locale path, w.perform (Effect.load locale path))

/-- The overload `Translator::setLanguage(const QLocale &, const QString &)`. -/
def setLanguageLocale (env : Env) (locale : QLocale) (lang : String) (w : World) :
    World :=
  let w1 := w.perform Effect.removeTranslator
  let w2 := (translatorLoad env locale (":/translations/" ++ lang ++ ".qm") w1).2
  let w3 := w2.perform Effect.installTranslator
  w3.perform Effect.languageChanged

/-- The switch at the head of `Translator::setLanguage(const int)`: the catalog name
and the locale chosen for an index. -/
def selectCatalog (lang : Int) : String × QLocale :=
  if lang = 0 then ("en", ⟨Language.English⟩)
  else if lang = 1 then ("es", ⟨Language.Spanish⟩)
  else ("en", ⟨Language.English⟩)

/-- The method `Translator::setLanguage(const int)`. -/
def setLanguage (env : Env) (lang : Int) (w : World) : World :=
  let sel := selectCatalog lang
  let w1 : World := { w with obj := { w.obj with m_language := lang } }
  setLanguageLocale env sel.2 sel.1 w1

/-! ## Histories of calls -/

/-- Construction followed by a sequence of `setLanguage(index)` calls. -/
def run (env : Env) (indices : List Int) : World :=
  indices.foldl (fun w i => setLanguage env i w) (construct env)

/-- The public methods of the class, as values. -/
inductive Call where
  | language
  | systemLanguage
  | dummyString
  | welcomeConsoleText
  | availableLanguages
  | setLanguage (index : Int)
  deriving DecidableEq

/-- The value a method returns. -/
inductive Ret where
  | int (v : Int)
  | str (s : String)
  | strList (l : List String)
  | unit
  deriving DecidableEq

/-- One method call on the object: the value returned and the world afterwards.  The
five `const` methods contain no assignment, no registry call and no `emit`. -/
def exec (env : Env) (c : Call) (w : World) : Ret × World :=
  match c with
  | Call.language => (Ret.int (language w.obj), w)
  | Call.systemLanguage => (Ret.int (systemLanguage env), w)
  | Call.dummyString => (Ret.str dummyString, w)
  | Call.welcomeConsoleText => (Ret.str (welcomeConsoleText env w.obj), w)
  | Call.availableLanguages => (Ret.strList availableLanguages, w)
  | Call.setLanguage i => (Ret.unit, setLanguage env i w)

/-! ## Observations on the event log -/

/-- The catalogs the translator was asked to load, in order. -/
def loads (es : List Effect) : List (QLocale × String) :=
  es.filterMap fun e =>
    match e with
    | Effect.load l p => some (l, p)
    | _ => none

/-- The number of `languageChanged` signals in a log. -/
def notifications (es : List Effect) : Nat :=
  es.count Effect.languageChanged

/-! ## Sample collaborators -/

/-- A decoder for resources of plain ASCII bytes. -/
def asciiDecode (bs : List UInt8) : String :=
  String.mk (bs.map fun b => Char.ofNat b.toNat)

/-- A sample environment: a French system, a store that holds only the Spanish
welcome text, and a translator whose load always fails. -/
def sampleEnv : Env where
  systemLocale := ⟨Language.Other 37⟩
  fileOpen := fun p => if p = ":/messages/Welcome_ES.txt" then some [72, 111, 108, 97] else none
  fromUtf8 := asciiDecode
  tr := fun s => s
  loadResult := fun _ _ => false

/-! ## Shared lemmas -/

theorem setLanguageLocale_events (env : Env) (locale : QLocale) (lang : String) (w : World) :
    (setLanguageLocale env locale lang w).events =
      w.events ++ [Effect.removeTranslator,
        Effect.load locale (":/translations/" ++ lang ++ ".qm"),
        Effect.installTranslator, Effect.languageChanged] := by
  simp [setLanguageLocale, translatorLoad, World.perform]

theorem setLanguageLocale_obj (env : Env) (locale : QLocale) (lang : String) (w : World) :
    (setLanguageLocale env locale lang w).obj = w.obj := by
  simp [setLanguageLocale, translatorLoad, World.perform]

theorem setLanguage_obj (env : Env) (i : Int) (w : World) :
    (setLanguage env i w).obj = { m_language := i } := by
  simp [setLanguage, setLanguageLocale_obj]

theorem setLanguage_events (env : Env) (i : Int) (w : World) :
    (setLanguage env i w).events =
      w.events ++ [Effect.removeTranslator,
        Effect.load (selectCatalog i).2 (":/translations/" ++ (selectCatalog i).1 ++ ".qm"),
        Effect.installTranslator, Effect.languageChanged] := by
  simp [setLanguage, setLanguageLocale_events]

theorem run_snoc (env : Env) (is : List Int) (i : Int) :
    run env (is ++ [i]) = setLanguage env i (run env is) := by
  simp [run, List.foldl_append]

theorem notifications_append (xs ys : List Effect) :
    notifications (xs ++ ys) = notifications xs + notifications ys := by
  simp [notifications]

theorem loads_append (xs ys : List Effect) : loads (xs ++ ys) = loads xs ++ loads ys := by
  simp [loads, List.filterMap_append]

theorem setLanguage_notifications (env : Env) (i : Int) (w : World) :
    notifications (setLanguage env i w).events = notifications w.events + 1 := by
  rw [setLanguage_events, notifications_append]
  simp [notifications]

/-! ## The claims -/

/-- C1: the code stores the requested index as it is. At the unrecognized indices 2
and -1, from every prior state, `language()` after `setLanguage(index)` returns the
index itself, not 0, while the catalog applied is the English one. -/
theorem setLanguage_unrecognized_keeps_index (env : Env) (w : World) :
    language (setLanguage env 2 w).obj = 2 ∧
    language (setLanguage env 2 w).obj ≠ 0 ∧
    language (setLanguage env (-1) w).obj = -1 ∧
    selectCatalog 2 = ("en", ⟨Language.English⟩) := by
  refine ⟨?_, ?_, ?_, ?_⟩
  · rw [setLanguage_obj]; rfl
  · rw [setLanguage_obj]; decide
  · rw [setLanguage_obj]; rfl
  · decide

/-- C2: `setLanguage(index)` asks the translator to load exactly one catalog: the
Spanish locale with ":/translations/es.qm" when the index is 1, and the English
locale with ":/translations/en.qm" for every other index. -/
theorem setLanguage_loads_one_catalog (env : Env) (i : Int) (w : World) :
    loads (setLanguage env i w).events =
      loads w.events ++
        [if i = 1 then ((⟨Language.Spanish⟩ : QLocale), ":/translations/es.qm")
         else ((⟨Language.English⟩ : QLocale), ":/translations/en.qm")] := by
  rw [setLanguage_events, loads_append]
  congr 1
  by_cases h1 : i = 1
  · subst h1
    simp [loads, selectCatalog]
  · by_cases h0 : i = 0
    · subst h0
      simp [loads, selectCatalog]
    · simp [loads, selectCatalog, h0, h1]

/-- C3: the state reached from construction by the single call `setLanguage(2)` has
`language()` equal to 2, which is not an index into `availableLanguages()`, whose
length is 2. -/
theorem run_language_out_of_range (env : Env) :
    language (run env [2]).obj = 2 ∧
    availableLanguages.length = 2 ∧
    ¬ (0 ≤ language (run env [2]).obj ∧
        language (run env [2]).obj < (availableLanguages.length : Int)) := by
  have h : language (run env [2]).obj = 2 := by
    show language (setLanguage env 2 (construct env)).obj = 2
    rw [setLanguage_obj]; rfl
  refine ⟨h, rfl, ?_⟩
  rw [h]
  decide

/-- C4: from every prior state `language()` after `setLanguage(1)` is 1, after a
subsequent `setLanguage(0)` it is 0, and for every recognized index i (0 or 1)
`language()` after `setLanguage(i)` is i. -/
theorem setLanguage_language_roundtrip (env : Env) (w : World) :
    language (setLanguage env 1 w).obj = 1 ∧
    language (setLanguage env 0 (setLanguage env 1 w)).obj = 0 ∧
    ∀ i : Int, i = 0 ∨ i = 1 → language (setLanguage env i w).obj = i := by
  refine ⟨?_, ?_, ?_⟩
  · rw [setLanguage_obj]; rfl
  · rw [setLanguage_obj]; rfl
  · intro i _
    rw [setLanguage_obj]; rfl

theorem setLanguage_language_roundtrip_witness :
    ((1 : Int) = 0 ∨ (1 : Int) = 1) ∧
    language (setLanguage sampleEnv 1 (run sampleEnv [7, 0])).obj = 1 :=
  ⟨Or.inr rfl,
   (setLanguage_language_roundtrip sampleEnv (run sampleEnv [7, 0])).2.2 1 (Or.inr rfl)⟩

/-- C5: the freshly constructed object has `language()` equal to 1 when the system
language is Spanish and 0 for every other system language; construction is a total
function and logs no event. -/
theorem construct_language (env : Env) :
    language (construct env).obj =
      (if env.systemLocale.language = Language.Spanish then 1 else 0) ∧
    (construct env).events = [] := by
  refine ⟨?_, rfl⟩
  show systemLanguage env = _
  unfold systemLanguage
  cases env.systemLocale.language <;> simp

/-- C6: `welcomeConsoleText()` selects ":/messages/Welcome_ES.txt" exactly when
`language()` is 1 and ":/messages/Welcome_EN.txt" for every other index; when the
selected resource opens, the result is the decoding of its bytes, and when it does
not, the result is the translated fallback string. -/
theorem welcomeConsoleText_spec (env : Env) (t : Translator) :
    (∀ bytes : List UInt8,
      env.fileOpen (if language t = 1 then ":/messages/Welcome_ES.txt"
        else ":/messages/Welcome_EN.txt") = some bytes →
      welcomeConsoleText env t = env.fromUtf8 bytes) ∧
    (env.fileOpen (if language t = 1 then ":/messages/Welcome_ES.txt"
        else ":/messages/Welcome_EN.txt") = none →
      welcomeConsoleText env t = env.tr "Failed to load welcome text :(") := by
  have hp : (":/messages/Welcome_" ++ (if language t = 1 then "ES" else "EN") ++ ".txt") =
      (if language t = 1 then ":/messages/Welcome_ES.txt"
        else ":/messages/Welcome_EN.txt") := by
    by_cases h : language t = 1
    · rw [if_pos h, if_pos h]; decide
    · rw [if_neg h, if_neg h]; decide
  constructor
  · intro bytes hb
    unfold welcomeConsoleText
    simp only [hp, hb]
  · intro hn
    unfold welcomeConsoleText
    simp only [hp, hn]

theorem welcomeConsoleText_spec_witness :
    (sampleEnv.fileOpen (if language ⟨1⟩ = 1 then ":/messages/Welcome_ES.txt"
        else ":/messages/Welcome_EN.txt") = some [72, 111, 108, 97] ∧
      welcomeConsoleText sampleEnv ⟨1⟩ = sampleEnv.fromUtf8 [72, 111, 108, 97]) ∧
    (sampleEnv.fileOpen (if language ⟨5⟩ = 1 then ":/messages/Welcome_ES.txt"
        else ":/messages/Welcome_EN.txt") = none ∧
      welcomeConsoleText sampleEnv ⟨5⟩ = sampleEnv.tr "Failed to load welcome text :(") :=
  ⟨⟨by decide, (welcomeConsoleText_spec sampleEnv ⟨1⟩).1 [72, 111, 108, 97] (by decide)⟩,
   ⟨by decide, (welcomeConsoleText_spec sampleEnv ⟨5⟩).2 (by decide)⟩⟩

/-- C7: in every state reached from construction, for every system locale, by any
sequence of `setLanguage` calls, `availableLanguages()` returns the two-element
list "English", "Español" in that order and leaves the state as it was. -/
theorem availableLanguages_constant (env : Env) (indices : List Int) :
    exec env Call.availableLanguages (run env indices) =
      (Ret.strList ["English", "Español"], run env indices) ∧
    availableLanguages.length = 2 :=
  ⟨rfl, rfl⟩

/-- C8: construction emits no `languageChanged` notification, every call of
`setLanguage(index)` emits exactly one, and after construction followed by n calls
of `setLanguage` exactly n notifications have been emitted. -/
theorem notifications_count (env : Env) :
    notifications (construct env).events = 0 ∧
    (∀ (i : Int) (w : World),
      notifications (setLanguage env i w).events = notifications w.events + 1) ∧
    (∀ indices : List Int, notifications (run env indices).events = indices.length) := by
  refine ⟨rfl, setLanguage_notifications env, ?_⟩
  intro indices
  induction indices using List.reverseRecOn with
  | nil => rfl
  | append_singleton is i ih =>
    rw [run_snoc, setLanguage_notifications, ih]
    simp

/-- C9: the events of `setLanguage(locale, catalogName)` are, in this order, the
removal of the translator, the load of ":/translations/" + catalogName + ".qm" for
the locale, the installation of the translator and the `languageChanged` signal;
the events, and the object, are the same in two environments whatever their
translators answer to the load. -/
theorem setLanguageLocale_sequence (env env2 : Env) (locale : QLocale) (name : String)
    (w : World) :
    (setLanguageLocale env locale name w).events =
      w.events ++ [Effect.removeTranslator,
        Effect.load locale (":/translations/" ++ name ++ ".qm"),
        Effect.installTranslator, Effect.languageChanged] ∧
    setLanguageLocale env locale name w = setLanguageLocale env2 locale name w := by
  refine ⟨setLanguageLocale_events env locale name w, ?_⟩
  simp [setLanguageLocale, translatorLoad]

/-- C10: a call of `language()`, `systemLanguage()`, `availableLanguages()`,
`welcomeConsoleText()` or `dummyString()`, that is any call other than
`setLanguage(index)`, leaves the current-language index and the event log as they
were, and `language()` called again right after it returns the value it returned
before. -/
theorem accessors_frame (env : Env) (c : Call) (w : World)
    (h : ∀ i : Int, c ≠ Call.setLanguage i) :
    (exec env c w).2 = w ∧
    (exec env Call.language (exec env c w).2).1 = (exec env Call.language w).1 ∧
    (exec env Call.language (exec env Call.language w).2).1 = (exec env Call.language w).1 := by
  have hw : (exec env c w).2 = w := by
    cases c with
    | setLanguage i => exact absurd rfl (h i)
    | language => rfl
    | systemLanguage => rfl
    | dummyString => rfl
    | welcomeConsoleText => rfl
    | availableLanguages => rfl
  exact ⟨hw, by rw [hw], rfl⟩

theorem accessors_frame_witness :
    (∀ i : Int, Call.welcomeConsoleText ≠ Call.setLanguage i) ∧
    (exec sampleEnv Call.welcomeConsoleText (run sampleEnv [1])).2 = run sampleEnv [1] :=
  ⟨fun _ => Call.noConfusion,
   (accessors_frame sampleEnv Call.welcomeConsoleText (run sampleEnv [1])
      (fun _ => Call.noConfusion)).1⟩

end SerialStudio
